import Mathlib

/-!
Verification of the `recursive_copy` engine (`src/lib.rs`) against its
natural-language specification.

Shallow embedding: a POSIX-like filesystem is a finite association list from
absolute paths (lists of components) to nodes. The functions `copy_recursive`,
`copy_dir`, `copy_one` and `recreate_symlink` below are direct translations of
the Rust functions of the same names in `src/lib.rs`; recursion over the
filesystem is made total with an explicit fuel parameter (`none` = fuel ran
out), so a fuel-independent result is the embedded form of termination.

Modeling conventions:
- symlink targets are stored as absolute paths, and all proper prefixes of
  stored paths are plain directories, so path resolution (`canonicalize`)
  follows link chains at whole-path granularity;
- directory listing order is the association-list order;
- I/O failures that the claims need (unreadable entry, unopenable file,
  failed symlink creation) are injected through a `Faults` record;
- `io::Error` values are modeled as a tag naming the failing primitive;
- sizes of non-regular-file nodes are modeled as 0.
-/

set_option autoImplicit false

/-- An absolute path, as its list of components. `[]` is the root. -/
abbrev FPath := List String

/-- A filesystem node, classified without following links (lstat view),
mirroring what `DirEntry::metadata` reports in `copy_dir`. -/
inductive FsNode where
  | file (content : String) (mode : Nat)
  | dir
  | symlink (target : FPath)
  | special
deriving DecidableEq, Repr

/-- A filesystem state: a finite association list from absolute paths to
nodes. First binding wins on lookup; insertion of a fresh path appends. -/
abbrev Fs := List (FPath × FsNode)

/-- `CopyOptions` from `src/lib.rs` (the struct actually used by
`copy_recursive`), fields in source order. -/
structure CopyOptions where
  overwrite : Bool
  follow_symlinks : Bool
  create_dest : Bool
  buffer_size : Nat
  preserve_permissions : Bool
  max_depth : Nat
deriving DecidableEq, Repr

/-- `CopyOptions::default()` from `src/lib.rs`. -/
def CopyOptions.libDefault : CopyOptions :=
  { overwrite := true, follow_symlinks := false, create_dest := true,
    buffer_size := 8 * 1024, preserve_permissions := true, max_depth := 256 }

/-- `CopySummary` from `src/lib.rs`. -/
structure CopySummary where
  bytes_copied : Nat
  errors : Nat
deriving DecidableEq, Repr

/-- `CopyError` from `src/lib.rs`; `Io` carries a tag naming the failing
primitive in place of the `io::Error` payload. -/
inductive CopyError where
  | Io (tag : String)
  | DepthExceeded (p : FPath)
  | SymlinkLoop (p : FPath)
  | SrcNotFound (p : FPath)
  | DestNotDir (p : FPath)
  | NotSupported (p : FPath)
deriving DecidableEq, Repr

/-- Injected I/O faults: paths on which a primitive fails. -/
structure Faults where
  badEntry : List FPath
  badOpen : List FPath
  badSymlinkCreate : List FPath
deriving DecidableEq, Repr

/-- No injected faults. -/
def noFaults : Faults := ⟨[], [], []⟩

/-- The mutable state threaded through `copy_dir`: the filesystem, the
visited set (`HashSet<PathBuf>` modeled as a duplicate-free list), and the
running summary. -/
structure St where
  fs : Fs
  visited : List FPath
  summary : CopySummary
deriving DecidableEq, Repr

/-- Node stored at exactly `p` (lstat: does not follow a link at `p`). -/
def lookupFs (fs : Fs) (p : FPath) : Option FsNode :=
  match fs.find? (fun e => e.1 = p) with
  | some e => some e.2
  | none => none

/-- Replace the node at `p`, or append a fresh binding. -/
def setFs (fs : Fs) (p : FPath) (n : FsNode) : Fs :=
  if (lookupFs fs p).isSome then
    fs.map (fun e => if e.1 = p then (p, n) else e)
  else fs ++ [(p, n)]

/-- Remove the binding at exactly `p` (`unlink`: removes a link itself). -/
def removeFs (fs : Fs) (p : FPath) : Fs :=
  fs.filter (fun e => decide (e.1 ≠ p))

/-- Follow the chain of symlinks starting at `p`; `none` models `ELOOP` or a
missing path, as `fs::canonicalize` fails there. -/
def resolveChain (fs : Fs) : Nat → FPath → Option FPath
  | 0, _ => none
  | fuel + 1, p =>
    match lookupFs fs p with
    | some (FsNode.symlink t) => resolveChain fs fuel t
    | some _ => some p
    | none => none

/-- `fs::canonicalize`: the real path `p` resolves to, if `p` exists. -/
def canonicalizeFs (fs : Fs) (p : FPath) : Option FPath :=
  resolveChain fs (fs.length + 1) p

/-- `stat` (follows links): the node the resolved path carries. -/
def statFs (fs : Fs) (p : FPath) : Option FsNode :=
  match canonicalizeFs fs p with
  | some q => lookupFs fs q
  | none => none

/-- `Path::exists()` (follows links). -/
def existsFs (fs : Fs) (p : FPath) : Bool :=
  (statFs fs p).isSome

/-- `Path::is_file()` (follows links). -/
def isFileFs (fs : Fs) (p : FPath) : Bool :=
  match statFs fs p with
  | some (FsNode.file _ _) => true
  | _ => false

/-- `Path::is_dir()` (follows links). -/
def isDirFs (fs : Fs) (p : FPath) : Bool :=
  match statFs fs p with
  | some FsNode.dir => true
  | _ => false

/-- `some n` iff `c = p ++ [n]`, i.e. `c` is a direct child of `p` named `n`. -/
def childName : FPath → FPath → Option String
  | [], [n] => some n
  | a :: ps, b :: qs => if a = b then childName ps qs else none
  | _, _ => none

/-- `fs::read_dir`: direct entries of `p` with their lstat classification,
in filesystem-listing (association-list) order. -/
def readDir (fs : Fs) (p : FPath) : List (String × FsNode) :=
  fs.filterMap (fun e => (childName p e.1).map (fun n => (n, e.2)))

/-- Follow a (possibly dangling) link chain at `p` to the path a
`File::create(p)` would actually write. -/
def chaseLinks (fs : Fs) : Nat → FPath → FPath
  | 0, p => p
  | fuel + 1, p =>
    match lookupFs fs p with
    | some (FsNode.symlink t) => chaseLinks fs fuel t
    | _ => p

/-- Helper for `fs::create_dir_all`: create each missing component below
`base`; an existing non-directory component is an error (`EEXIST`). -/
def mkdirs : Fs → FPath → List String → Fs × Except CopyError Unit
  | fs, _, [] => (fs, Except.ok ())
  | fs, base, c :: rest =>
    match statFs fs (base ++ [c]) with
    | some FsNode.dir => mkdirs fs (base ++ [c]) rest
    | none => mkdirs (setFs fs (base ++ [c]) FsNode.dir) (base ++ [c]) rest
    | some _ => (fs, Except.error (CopyError.Io "create_dir_all"))

/-- `fs::create_dir_all`. -/
def create_dir_all (fs : Fs) (p : FPath) : Fs × Except CopyError Unit :=
  mkdirs fs [] p

/-- The open/create/stream/chmod tail of `copy_one` (`src/lib.rs` lines
159-179), reached after the overwrite and parent-creation preamble. -/
def copy_one_body (fl : Faults) (opts : CopyOptions) (fs : Fs) (src dst : FPath) :
    Fs × Except CopyError Nat :=
  if src ∈ fl.badOpen then (fs, Except.error (CopyError.Io "open"))
  else
    match statFs fs src with
    | some (FsNode.file c m) =>
      let target := chaseLinks fs fs.length dst
      if isDirFs fs target.dropLast then
        match lookupFs fs target with
        | some FsNode.dir => (fs, Except.error (CopyError.Io "create"))
        | _ =>
          let content := if opts.buffer_size = 0 then "" else c
          let mode := if opts.preserve_permissions then m else 420
          (setFs fs target (FsNode.file content mode),
            Except.ok (if opts.buffer_size = 0 then 0 else c.length))
      else (fs, Except.error (CopyError.Io "create"))
    | _ => (fs, Except.error (CopyError.Io "open"))

/-- `copy_one` from `src/lib.rs` (lines 146-180): overwrite policy, parent
creation, then byte transfer. Returns the updated filesystem together with
the result, since the Rust function mutates the filesystem before it can
fail. -/
def copy_one (fl : Faults) (opts : CopyOptions) (fs : Fs) (src dst : FPath) :
    Fs × Except CopyError Nat :=
  if existsFs fs dst then
    if opts.overwrite then
      match lookupFs fs dst with
      | some FsNode.dir => (fs, Except.error (CopyError.Io "remove_file"))
      | _ => copy_one_body fl opts (removeFs fs dst) src dst
    else (fs, Except.ok 0)
  else
    if opts.create_dest then
      match create_dir_all fs dst.dropLast with
      | (fs1, Except.error e) => (fs1, Except.error e)
      | (fs1, Except.ok _) => copy_one_body fl opts fs1 src dst
    else copy_one_body fl opts fs src dst

/-- `unix_fs::symlink(target, dst)` with its error counted, as in
`recreate_symlink` (`src/lib.rs` lines 191-194); creation at an occupied
path fails with `EEXIST`. -/
def symlinkCreate (fl : Faults) (fs : Fs) (target dst : FPath)
    (summary : CopySummary) : Fs × CopySummary × Except CopyError Unit :=
  if dst ∈ fl.badSymlinkCreate ∨ (lookupFs fs dst).isSome then
    (fs, { summary with errors := summary.errors + 1 }, Except.ok ())
  else (setFs fs dst (FsNode.symlink target), summary, Except.ok ())

/-- `recreate_symlink` from `src/lib.rs` (lines 182-202). -/
def recreate_symlink (fl : Faults) (opts : CopyOptions) (fs : Fs)
    (src dst : FPath) (summary : CopySummary) :
    Fs × CopySummary × Except CopyError Unit :=
  match lookupFs fs src with
  | some (FsNode.symlink target) =>
    if existsFs fs dst then
      if opts.overwrite then
        match lookupFs fs dst with
        | some FsNode.dir => (fs, summary, Except.error (CopyError.Io "remove_file"))
        | _ => symlinkCreate fl (removeFs fs dst) target dst summary
      else (fs, summary, Except.ok ())
    else symlinkCreate fl fs target dst summary
  | _ => (fs, { summary with errors := summary.errors + 1 }, Except.ok ())

/-- The entry loop of `copy_dir` (`src/lib.rs` lines 89-141), with the
recursive call abstracted as `rec`. Dispatches each entry on its lstat
kind exactly as the Rust `for` loop does. -/
def copyEntries
    (rec : FPath → FPath → Nat → List FPath → Fs → CopySummary →
      Option (Except CopyError St))
    (fl : Faults) (opts : CopyOptions) (src dst : FPath) (depth : Nat) :
    List (String × FsNode) → List FPath → Fs → CopySummary →
      Option (Except CopyError St)
  | [], visited, fs, summary => some (Except.ok ⟨fs, visited, summary⟩)
  | (name, meta) :: rest, visited, fs, summary =>
    if src ++ [name] ∈ fl.badEntry then
      copyEntries rec fl opts src dst depth rest visited fs
        { summary with errors := summary.errors + 1 }
    else
      match meta with
      | FsNode.dir =>
        match (if existsFs fs (dst ++ [name]) then (fs, Except.ok ())
               else create_dir_all fs (dst ++ [name])) with
        | (_, Except.error e) => some (Except.error e)
        | (fs1, Except.ok _) =>
          match rec (src ++ [name]) (dst ++ [name]) (depth + 1) visited fs1 summary with
          | none => none
          | some (Except.error e) => some (Except.error e)
          | some (Except.ok st) =>
            copyEntries rec fl opts src dst depth rest st.visited st.fs st.summary
      | FsNode.file _ _ =>
        match copy_one fl opts fs (src ++ [name]) (dst ++ [name]) with
        | (fs1, Except.ok b) =>
          copyEntries rec fl opts src dst depth rest visited fs1
            { summary with bytes_copied := summary.bytes_copied + b }
        | (fs1, Except.error _) =>
          copyEntries rec fl opts src dst depth rest visited fs1
            { summary with errors := summary.errors + 1 }
      | FsNode.symlink _ =>
        if opts.follow_symlinks then
          match canonicalizeFs fs (src ++ [name]) with
          | some target =>
            if isFileFs fs target then
              match copy_one fl opts fs target (dst ++ [name]) with
              | (fs1, Except.ok b) =>
                copyEntries rec fl opts src dst depth rest visited fs1
                  { summary with bytes_copied := summary.bytes_copied + b }
              | (_, Except.error e) => some (Except.error e)
            else if isDirFs fs target then
              match rec target (dst ++ [name]) (depth + 1) visited fs summary with
              | none => none
              | some (Except.error e) => some (Except.error e)
              | some (Except.ok st) =>
                copyEntries rec fl opts src dst depth rest st.visited st.fs st.summary
            else copyEntries rec fl opts src dst depth rest visited fs summary
          | none =>
            copyEntries rec fl opts src dst depth rest visited fs
              { summary with errors := summary.errors + 1 }
        else
          match recreate_symlink fl opts fs (src ++ [name]) (dst ++ [name]) summary with
          | (_, _, Except.error e) => some (Except.error e)
          | (fs1, s1, Except.ok _) =>
            copyEntries rec fl opts src dst depth rest visited fs1 s1
      | FsNode.special =>
        copyEntries rec fl opts src dst depth rest visited fs
          { summary with errors := summary.errors + 1 }

/-- `copy_dir` from `src/lib.rs` (lines 79-144): depth check, canonicalize,
visited-set cycle guard, then the entry loop. `none` means the fuel ran
out before the walk finished. -/
def copy_dir (fl : Faults) (opts : CopyOptions) :
    Nat → FPath → FPath → Nat → List FPath → Fs → CopySummary →
      Option (Except CopyError St)
  | 0, _, _, _, _, _, _ => none
  | fuel + 1, src, dst, depth, visited, fs, summary =>
    if depth > opts.max_depth then
      some (Except.error (CopyError.DepthExceeded src))
    else
      match canonicalizeFs fs src with
      | none => some (Except.error (CopyError.Io "canonicalize"))
      | some real_src =>
        if real_src ∈ visited then
          some (Except.error (CopyError.SymlinkLoop real_src))
        else if isDirFs fs src then
          copyEntries (copy_dir fl opts fuel) fl opts src dst depth
            (readDir fs src) (real_src :: visited) fs summary
        else some (Except.error (CopyError.Io "read_dir"))

/-- `fs::metadata(dst).map(|m| m.len()).unwrap_or(0)` from `copy_recursive`
line 57; non-file sizes are modeled as 0. -/
def destLen (fs : Fs) (p : FPath) : Nat :=
  match statFs fs p with
  | some (FsNode.file c _) => c.length
  | some _ => 0
  | none => 0

/-- `copy_recursive` from `src/lib.rs` (lines 50-77): the public entry
point. -/
def copy_recursive (fl : Faults) (fs : Fs) (src dst : FPath)
    (opts : CopyOptions) (fuel : Nat) :
    Option (Except CopyError (Fs × CopySummary)) :=
  if existsFs fs src then
    if isFileFs fs src then
      match copy_one fl opts fs src dst with
      | (_, Except.error e) => some (Except.error e)
      | (fs1, Except.ok _) => some (Except.ok (fs1, ⟨destLen fs1 dst, 0⟩))
    else if isDirFs fs src then
      if existsFs fs dst && !isDirFs fs dst then
        some (Except.error (CopyError.DestNotDir dst))
      else
        match (if opts.create_dest then create_dir_all fs dst
               else (fs, Except.ok ())) with
        | (_, Except.error e) => some (Except.error e)
        | (fs1, Except.ok _) =>
          match copy_dir fl opts fuel src dst 0 [] fs1 ⟨0, 0⟩ with
          | none => none
          | some (Except.error e) => some (Except.error e)
          | some (Except.ok st) => some (Except.ok (st.fs, st.summary))
    else some (Except.error (CopyError.NotSupported src))
  else some (Except.error (CopyError.SrcNotFound src))

/-! ## Fixtures: concrete filesystem states for the claims -/

/-- `CopyOptions::default()` with `follow_symlinks` switched on. -/
def optsFollow : CopyOptions :=
  { CopyOptions.libDefault with follow_symlinks := true }

/-- `CopyOptions::default()` with `overwrite` switched off. -/
def optsNoOv : CopyOptions :=
  { CopyOptions.libDefault with overwrite := false }

/-- C1: directory `a` containing `a/link -> a`, plus a destination `d`. -/
def fsC1 : Fs :=
  [([], FsNode.dir), (["a"], FsNode.dir),
   (["a", "link"], FsNode.symlink ["a"]), (["d"], FsNode.dir)]

/-- C2: one real directory `t` (holding a file) reachable through two
sibling symlinks `s/l1` and `s/l2` — two non-overlapping branches. -/
def fsC2 : Fs :=
  [([], FsNode.dir), (["t"], FsNode.dir), (["t", "f"], FsNode.file "hi" 420),
   (["s"], FsNode.dir), (["s", "l1"], FsNode.symlink ["t"]),
   (["s", "l2"], FsNode.symlink ["t"]), (["d"], FsNode.dir)]

/-- C2 witness scenario: a single empty source directory. -/
def fsC2w : Fs := [([], FsNode.dir), (["s"], FsNode.dir), (["d"], FsNode.dir)]

/-- C3: source with a special entry `s/p` listed before a regular file
`s/f`. -/
def fsC3 : Fs :=
  [([], FsNode.dir), (["s"], FsNode.dir), (["s", "p"], FsNode.special),
   (["s", "f"], FsNode.file "ab" 420), (["d"], FsNode.dir)]

/-- C3 expected outcome: only the regular sibling is replicated. -/
def fsC3done : Fs := fsC3 ++ [(["d", "f"], FsNode.file "ab" 420)]

/-- C4: a regular file `f.txt` and a pre-existing destination directory
`d`. -/
def fsC4 : Fs :=
  [([], FsNode.dir), (["f.txt"], FsNode.file "hello" 420), (["d"], FsNode.dir)]

/-- C4 expected outcome of the rename case `f.txt -> g.txt`. -/
def fsC4g : Fs := fsC4 ++ [(["g.txt"], FsNode.file "hello" 420)]

/-- C5: source `src/{a.txt, sub/b.txt}` and a pre-existing destination
directory `dst`. -/
def fsC5 : Fs :=
  [([], FsNode.dir), (["src"], FsNode.dir),
   (["src", "a.txt"], FsNode.file "A" 420), (["src", "sub"], FsNode.dir),
   (["src", "sub", "b.txt"], FsNode.file "B" 420), (["dst"], FsNode.dir)]

/-- C5 actual outcome: contents placed directly under `dst`. -/
def fsC5done : Fs :=
  fsC5 ++ [(["dst", "a.txt"], FsNode.file "A" 420), (["dst", "sub"], FsNode.dir),
    (["dst", "sub", "b.txt"], FsNode.file "B" 420)]

/-- C6: a chain of directories nested three levels below the copy root. -/
def fsC6 : Fs :=
  [([], FsNode.dir), (["c"], FsNode.dir), (["c", "c"], FsNode.dir),
   (["c", "c", "c"], FsNode.dir), (["c", "c", "c", "c"], FsNode.dir),
   (["d"], FsNode.dir)]

/-- C6 expected outcome when the ceiling is not crossed. -/
def fsC6done : Fs :=
  fsC6 ++ [(["d", "c"], FsNode.dir), (["d", "c", "c"], FsNode.dir),
    (["d", "c", "c", "c"], FsNode.dir)]

/-- C7: a followed file symlink `s/l -> out` listed before a healthy
sibling `s/g`. -/
def fsC7 : Fs :=
  [([], FsNode.dir), (["out"], FsNode.file "secret" 420), (["s"], FsNode.dir),
   (["s", "l"], FsNode.symlink ["out"]), (["s", "g"], FsNode.file "ok" 420),
   (["d"], FsNode.dir)]

/-- C7: a plain file `s/x` listed before a healthy sibling `s/g`. -/
def fsC7b : Fs :=
  [([], FsNode.dir), (["s"], FsNode.dir), (["s", "x"], FsNode.file "xx" 420),
   (["s", "g"], FsNode.file "gg" 420), (["d"], FsNode.dir)]

/-- C7 expected outcome when `s/x` fails per-entry: `s/g` still copied. -/
def fsC7bdone : Fs := fsC7b ++ [(["d", "g"], FsNode.file "gg" 420)]

/-- C7: a symlink `s/l` to be recreated, listed before a sibling `s/g`. -/
def fsC7c : Fs :=
  [([], FsNode.dir), (["out"], FsNode.file "o" 420), (["s"], FsNode.dir),
   (["s", "l"], FsNode.symlink ["out"]), (["s", "g"], FsNode.file "gg" 420),
   (["d"], FsNode.dir)]

/-- C7 expected outcome when recreating `d/l` fails: `s/g` still copied. -/
def fsC7cdone : Fs := fsC7c ++ [(["d", "g"], FsNode.file "gg" 420)]

/-- C7: destination path occupied by a regular file. -/
def fsC7d : Fs :=
  [([], FsNode.dir), (["s"], FsNode.dir), (["x"], FsNode.file "q" 420)]

/-- C7: a special file as the top-level source. -/
def fsC7e : Fs :=
  [([], FsNode.dir), (["sp"], FsNode.special), (["d"], FsNode.dir)]

/-- C7: one subdirectory, to cross a `max_depth = 0` ceiling. -/
def fsC7f : Fs :=
  [([], FsNode.dir), (["s"], FsNode.dir), (["s", "sub"], FsNode.dir),
   (["d"], FsNode.dir)]

/-- C7: a one-step symlink cycle `s/loop -> s`. -/
def fsC7g : Fs :=
  [([], FsNode.dir), (["s"], FsNode.dir),
   (["s", "loop"], FsNode.symlink ["s"]), (["d"], FsNode.dir)]

/-- C8: destination already holds `d/old.txt`; source has a changed
`old.txt` and a fresh `new.txt`. -/
def fsC8 : Fs :=
  [([], FsNode.dir), (["s"], FsNode.dir), (["s", "old.txt"], FsNode.file "NEW" 420),
   (["s", "new.txt"], FsNode.file "n" 420), (["d"], FsNode.dir),
   (["d", "old.txt"], FsNode.file "OLDWXYZ" 400)]

/-- C8 expected outcome with `overwrite = false`: `d/old.txt` untouched,
`d/new.txt` copied. -/
def fsC8done : Fs := fsC8 ++ [(["d", "new.txt"], FsNode.file "n" 420)]

/-- C9 family: a symlink `s/l` pointing at `secret`, a file outside the
source tree `s`, with arbitrary content and mode. -/
def fsC9fam (c : String) (m : Nat) : Fs :=
  [([], FsNode.dir), (["secret"], FsNode.file c m), (["s"], FsNode.dir),
   (["s", "l"], FsNode.symlink ["secret"]), (["d"], FsNode.dir)]

/-- C9 family outcome: the outside target is replicated at `d/l`. -/
def fsC9famDone (c : String) (m : Nat) : Fs :=
  fsC9fam c m ++ [(["d", "l"], FsNode.file c m)]

/-- C10: a 3-byte source and a pre-existing 4-byte destination file. -/
def fsC10 : Fs :=
  [([], FsNode.dir), (["a.txt"], FsNode.file "abc" 420),
   (["b.txt"], FsNode.file "wxyz" 400)]

/-! ## Helper lemmas -/

/-- A path classified as a regular file exists. -/
theorem existsFs_of_isFileFs {fs : Fs} {p : FPath} (h : isFileFs fs p = true) :
    existsFs fs p = true := by
  unfold isFileFs at h
  unfold existsFs
  cases hs : statFs fs p with
  | none => rw [hs] at h; exact absurd h (by simp)
  | some n => simp [hs]

/-! ## Claims -/

/-- C1: a source directory containing a symlink cycle (`a/link -> a`) makes
`copy_recursive` with `follow_symlinks = true` terminate with
`SymlinkLoop` carrying the canonical path of the revisited directory, for
every overwrite/create/permission configuration, every `max_depth ≥ 1`
and every sufficient fuel (fuel-independence is the embedded form of
termination: the walk never recurses unboundedly). The cycle is caught by
the visited-set check at the top of `copy_dir`, before the revisited
directory's entries are read. -/
theorem claim_C1 (ov cd pp : Bool) (bs md fuel : Nat) :
    copy_recursive noFaults fsC1 ["a"] ["d"]
      ⟨ov, true, cd, bs, pp, md + 1⟩ (fuel + 2) =
      some (Except.error (CopyError.SymlinkLoop ["a"])) := by
  cases ov <;> cases cd <;> cases pp <;> rfl

/-- C3 counterexample: a special entry `s/p` is indeed skipped (no `d/p` in
the destination) and the walk continues with the sibling `s/f`, but the
returned summary counts the skip as an error (`errors = 1`), contradicting
the claim that the skip does not count as an error. -/
theorem claim_C3_counterexample :
    copy_recursive noFaults fsC3 ["s"] ["d"] CopyOptions.libDefault 5 =
      some (Except.ok (fsC3done, ⟨2, 1⟩)) ∧
    lookupFs fsC3done ["d", "p"] = none := ⟨rfl, rfl⟩

/-- C3 amended: for every option configuration, a special directory entry is
skipped — no corresponding destination entry is created and the walk
continues with the remaining siblings — but each skipped special entry is
counted in the returned summary's error count (here `errors = 1`). -/
theorem claim_C3 (ov fle cd pp : Bool) (bs md fuel : Nat) :
    ∃ fs1 b,
      copy_recursive noFaults fsC3 ["s"] ["d"]
        ⟨ov, fle, cd, bs, pp, md⟩ (fuel + 1) =
        some (Except.ok (fs1, ⟨b, 1⟩)) ∧
      lookupFs fs1 ["d", "p"] = none ∧
      isFileFs fs1 ["d", "f"] = true := by
  cases ov <;> cases fle <;> cases cd <;> cases pp <;> cases bs <;>
    exact ⟨_, _, rfl, rfl, rfl⟩

/-- C4: evaluation of the code at the failing input. Copying regular file
`f.txt` onto existing directory `d` with the library's default options
(`overwrite = true`) fails with the `remove_file` I/O error instead of
producing `d/f.txt`; with `overwrite = false` it silently no-ops (no
`d/f.txt` is ever created). Copying onto the non-existent path `g.txt`
does produce the renamed copy, as the claim says. -/
theorem claim_C4 :
    copy_recursive noFaults fsC4 ["f.txt"] ["d"] CopyOptions.libDefault 5 =
      some (Except.error (CopyError.Io "remove_file")) ∧
    copy_recursive noFaults fsC4 ["f.txt"] ["d"] optsNoOv 5 =
      some (Except.ok (fsC4, ⟨0, 0⟩)) ∧
    lookupFs fsC4 ["d", "f.txt"] = none ∧
    copy_recursive noFaults fsC4 ["f.txt"] ["g.txt"] CopyOptions.libDefault 5 =
      some (Except.ok (fsC4g, ⟨5, 0⟩)) ∧
    lookupFs fsC4g ["g.txt"] = some (FsNode.file "hello" 420) :=
  ⟨rfl, rfl, rfl, rfl, rfl⟩

/-- C5: evaluation of the code at the failing input. With a pre-existing
destination directory `dst`, the code places the source directory's
contents directly under `dst` (`dst/a.txt`, `dst/sub/b.txt`) and never
creates the `dst/src` copy root the claim (and the repository's own test)
expects; `CopyOptions` in `src/lib.rs` has no `content_only` field at
all. -/
theorem claim_C5 :
    copy_recursive noFaults fsC5 ["src"] ["dst"] CopyOptions.libDefault 9 =
      some (Except.ok (fsC5done, ⟨2, 0⟩)) ∧
    lookupFs fsC5done ["dst", "src", "a.txt"] = none ∧
    lookupFs fsC5done ["dst", "a.txt"] = some (FsNode.file "A" 420) ∧
    lookupFs fsC5done ["dst", "sub", "b.txt"] = some (FsNode.file "B" 420) :=
  ⟨rfl, rfl, rfl, rfl⟩

/-- C6: the depth ceiling. (1) Generically, any `copy_dir` call whose
per-call depth exceeds `options.max_depth` fails immediately — at the top
of the call — with `DepthExceeded` carrying that call's source path.
(2) A tree nested exactly at the ceiling (`max_depth = 3`, deepest call at
depth 3) succeeds. (3) One level beyond the ceiling (`max_depth = 2`)
fails with `DepthExceeded` carrying the path at which the ceiling was
crossed. -/
theorem claim_C6 :
    (∀ (fl : Faults) (opts : CopyOptions) (fuel : Nat) (src dst : FPath)
        (depth : Nat) (visited : List FPath) (fs : Fs) (summary : CopySummary),
      depth > opts.max_depth →
        copy_dir fl opts (fuel + 1) src dst depth visited fs summary =
          some (Except.error (CopyError.DepthExceeded src))) ∧
    copy_recursive noFaults fsC6 ["c"] ["d"]
        { CopyOptions.libDefault with max_depth := 3 } 9 =
      some (Except.ok (fsC6done, ⟨0, 0⟩)) ∧
    copy_recursive noFaults fsC6 ["c"] ["d"]
        { CopyOptions.libDefault with max_depth := 2 } 9 =
      some (Except.error (CopyError.DepthExceeded ["c", "c", "c", "c"])) := by
  refine ⟨?_, rfl, rfl⟩
  intro fl opts fuel src dst depth visited fs summary h
  simp only [copy_dir]
  rw [if_pos h]

/-- C6 witness: the generic conjunct applied at a concrete call whose depth
300 exceeds the default ceiling 256. -/
theorem claim_C6_witness :
    copy_dir noFaults CopyOptions.libDefault 1 ["x"] ["y"] 300 [] fsC2w ⟨0, 0⟩ =
      some (Except.error (CopyError.DepthExceeded ["x"])) :=
  claim_C6.1 noFaults CopyOptions.libDefault 0 ["x"] ["y"] 300 [] fsC2w ⟨0, 0⟩
    (by decide)

/-- C7 counterexample: a followed file symlink whose target copy fails
(`s/l -> out`, with `out` unopenable) aborts the whole call with the
propagated I/O error — the sibling `s/g` is never reached and no error is
counted — contradicting the claim that a failed copy of a followed file
symlink's target is counted and traversal continues. -/
theorem claim_C7_counterexample :
    copy_recursive ⟨[], [["out"]], []⟩ fsC7 ["s"] ["d"] optsFollow 5 =
      some (Except.error (CopyError.Io "open")) := rfl

/-- C7 amended: per-entry resilience and fatal errors as the code actually
implements them. (1) An unreadable directory entry is counted and the
walk continues with the siblings. (2) A failed plain single-file copy is
counted and the walk continues. (3) A failed symlink recreation is
counted and the walk continues. (4) But a followed file symlink whose
target copy fails aborts the whole call (propagated, not counted). The
structural errors always abort: (5) `SrcNotFound`, (6) `DestNotDir`,
(7) top-level `NotSupported`, (8) `DepthExceeded`, (9) `SymlinkLoop`. -/
theorem claim_C7 :
    copy_recursive ⟨[["s", "x"]], [], []⟩ fsC7b ["s"] ["d"]
        CopyOptions.libDefault 5 =
      some (Except.ok (fsC7bdone, ⟨2, 1⟩)) ∧
    copy_recursive ⟨[], [["s", "x"]], []⟩ fsC7b ["s"] ["d"]
        CopyOptions.libDefault 5 =
      some (Except.ok (fsC7bdone, ⟨2, 1⟩)) ∧
    copy_recursive ⟨[], [], [["d", "l"]]⟩ fsC7c ["s"] ["d"]
        CopyOptions.libDefault 5 =
      some (Except.ok (fsC7cdone, ⟨2, 1⟩)) ∧
    lookupFs fsC7cdone ["d", "l"] = none ∧
    copy_recursive ⟨[], [["out"]], []⟩ fsC7 ["s"] ["d"] optsFollow 5 =
      some (Except.error (CopyError.Io "open")) ∧
    copy_recursive noFaults fsC7b ["nope"] ["d"] CopyOptions.libDefault 5 =
      some (Except.error (CopyError.SrcNotFound ["nope"])) ∧
    copy_recursive noFaults fsC7d ["s"] ["x"] CopyOptions.libDefault 5 =
      some (Except.error (CopyError.DestNotDir ["x"])) ∧
    copy_recursive noFaults fsC7e ["sp"] ["d"] CopyOptions.libDefault 5 =
      some (Except.error (CopyError.NotSupported ["sp"])) ∧
    copy_recursive noFaults fsC7f ["s"] ["d"]
        { CopyOptions.libDefault with max_depth := 0 } 5 =
      some (Except.error (CopyError.DepthExceeded ["s", "sub"])) ∧
    copy_recursive noFaults fsC7g ["s"] ["d"] optsFollow 5 =
      some (Except.error (CopyError.SymlinkLoop ["s"])) :=
  ⟨rfl, rfl, rfl, rfl, rfl, rfl, rfl, rfl, rfl, rfl⟩

/-- C9 counterexample: with `follow_symlinks = true`, a symlink inside the
source tree pointing at `/secret` — outside the canonical source root — is
not skipped: its target's content is copied to `d/l`, contradicting the
claim that such entries are never copied. (`CopyOptions` in `src/lib.rs`
has no `restrict_symlinks` field, so no configuration enables the
containment check.) -/
theorem claim_C9_counterexample :
    copy_recursive noFaults (fsC9fam "passwd" 420) ["s"] ["d"] optsFollow 5 =
      some (Except.ok (fsC9famDone "passwd" 420, ⟨6, 0⟩)) ∧
    lookupFs (fsC9famDone "passwd" 420) ["d", "l"] =
      some (FsNode.file "passwd" 420) := ⟨rfl, rfl⟩

/-- C9 amended: with `follow_symlinks = true`, a symlink whose resolved
target is a file is always followed and its target copied, regardless of
whether the target lies inside the source tree — the implementation has no
containment check and no `restrict_symlinks` option. Shown for the
escaping-link scenario with arbitrary target content and mode: the outside
file's content always appears at the destination. -/
theorem claim_C9 (c : String) (m : Nat) :
    copy_recursive noFaults (fsC9fam c m) ["s"] ["d"] optsFollow 5 =
      some (Except.ok (fsC9famDone c m, ⟨c.length, 0⟩)) ∧
    lookupFs (fsC9famDone c m) ["d", "l"] = some (FsNode.file c m) := by
  have h : copy_recursive noFaults (fsC9fam c m) ["s"] ["d"] optsFollow 5 =
      some (Except.ok (fsC9famDone c m, ⟨0 + c.length, 0⟩)) := rfl
  rw [Nat.zero_add] at h
  exact ⟨h, rfl⟩

/-- C8: when the destination already exists and `overwrite` is false,
`copy_file` (`copy_one`) is a no-op returning 0 bytes and leaving the
filesystem — in particular the existing destination file's content and
permission bits — unchanged, for every filesystem, paths and faults; and
in a walk over a source with one pre-existing and one fresh destination
entry, the pre-existing `d/old.txt` keeps its old content `"OLDWXYZ"` and
mode 400 while the sibling `d/new.txt` is still copied. -/
theorem claim_C8 :
    (∀ (fl : Faults) (opts : CopyOptions) (fs : Fs) (src dst : FPath),
      existsFs fs dst = true → opts.overwrite = false →
        copy_one fl opts fs src dst = (fs, Except.ok 0)) ∧
    copy_recursive noFaults fsC8 ["s"] ["d"] optsNoOv 5 =
      some (Except.ok (fsC8done, ⟨1, 0⟩)) ∧
    lookupFs fsC8done ["d", "old.txt"] = some (FsNode.file "OLDWXYZ" 400) ∧
    lookupFs fsC8done ["d", "new.txt"] = some (FsNode.file "n" 420) := by
  refine ⟨?_, rfl, rfl, rfl⟩
  intro fl opts fs src dst h1 h2
  simp [copy_one, h1, h2]

/-- C8 witness: the generic no-op conjunct applied at the scenario's
pre-existing destination file. -/
theorem claim_C8_witness :
    copy_one noFaults optsNoOv fsC8 ["s", "old.txt"] ["d", "old.txt"] =
      (fsC8, Except.ok 0) :=
  claim_C8.1 noFaults optsNoOv fsC8 ["s", "old.txt"] ["d", "old.txt"]
    (by decide) rfl

/-- C10: in single-file mode, the summary's `bytes_copied` is read back
from the destination's metadata after the copy (`destLen`), not from the
number of bytes transferred: whenever the source is a regular file and
`copy_one` succeeds, the result is `destLen` of the destination in the
final state. In particular, with `overwrite = false` onto an existing
4-byte destination, `bytes_copied = 4` even though the no-op transferred
0 bytes (and the 3-byte source was never read): the destination still
holds its old content afterwards. -/
theorem claim_C10 :
    (∀ (fl : Faults) (fs fs1 : Fs) (src dst : FPath) (opts : CopyOptions)
        (fuel t : Nat),
      isFileFs fs src = true →
      copy_one fl opts fs src dst = (fs1, Except.ok t) →
        copy_recursive fl fs src dst opts fuel =
          some (Except.ok (fs1, ⟨destLen fs1 dst, 0⟩))) ∧
    copy_recursive noFaults fsC10 ["a.txt"] ["b.txt"] optsNoOv 5 =
      some (Except.ok (fsC10, ⟨4, 0⟩)) ∧
    statFs fsC10 ["b.txt"] = some (FsNode.file "wxyz" 400) := by
  refine ⟨?_, rfl, rfl⟩
  intro fl fs fs1 src dst opts fuel t h1 h2
  simp [copy_recursive, existsFs_of_isFileFs h1, h1, h2]

/-- C10 witness: the generic conjunct applied at the no-op scenario, where
the destination's post-call metadata size is 4. -/
theorem claim_C10_witness :
    copy_recursive noFaults fsC10 ["a.txt"] ["b.txt"] optsNoOv 5 =
      some (Except.ok (fsC10, ⟨destLen fsC10 ["b.txt"], 0⟩)) :=
  claim_C10.1 noFaults fsC10 fsC10 ["a.txt"] ["b.txt"] optsNoOv 5 0
    (by decide) rfl

/-- If the recursive callee only ever grows the visited set, so does one
pass of the entry loop: every path in the visited set when `copyEntries`
starts is still there when it returns successfully. -/
theorem copyEntries_visited_mono
    (rec : FPath → FPath → Nat → List FPath → Fs → CopySummary →
      Option (Except CopyError St))
    (hrec : ∀ src dst depth visited fs summary st,
      rec src dst depth visited fs summary = some (Except.ok st) →
      ∀ x, x ∈ visited → x ∈ st.visited)
    (fl : Faults) (opts : CopyOptions) (src dst : FPath) (depth : Nat) :
    ∀ (entries : List (String × FsNode)) (visited : List FPath) (fs : Fs)
      (summary : CopySummary) (st : St),
      copyEntries rec fl opts src dst depth entries visited fs summary =
        some (Except.ok st) →
      ∀ x, x ∈ visited → x ∈ st.visited := by
  intro entries
  induction entries with
  | nil =>
    intro visited fs summary st h x hx
    simp only [copyEntries, Option.some.injEq, Except.ok.injEq] at h
    rw [show st.visited = visited from by rw [h.symm]]
    exact hx
  | cons e rest ih =>
    intro visited fs summary st h x hx
    obtain ⟨name, meta⟩ := e
    simp only [copyEntries] at h
    repeat' split at h
    all_goals try cases h
    all_goals try exact ih _ _ _ _ h x hx
    all_goals rename_i st1 hrc
    all_goals exact ih _ _ _ _ h x (hrec _ _ _ _ _ _ _ hrc x hx)

/-- A successful `copy_dir` call only ever grows the visited set. -/
theorem copy_dir_visited_mono (fl : Faults) (opts : CopyOptions) :
    ∀ (fuel : Nat) (src dst : FPath) (depth : Nat) (visited : List FPath)
      (fs : Fs) (summary : CopySummary) (st : St),
      copy_dir fl opts fuel src dst depth visited fs summary =
        some (Except.ok st) →
      ∀ x, x ∈ visited → x ∈ st.visited := by
  intro fuel
  induction fuel with
  | zero =>
    intro src dst depth visited fs summary st h x hx
    exact absurd h (by simp [copy_dir])
  | succ fuel ih =>
    intro src dst depth visited fs summary st h x hx
    simp only [copy_dir] at h
    repeat' split at h
    all_goals try cases h
    exact copyEntries_visited_mono (copy_dir fl opts fuel) ih fl opts src dst
      depth _ _ _ _ _ h x (List.mem_cons_of_mem _ hx)

/-- C2 amended: a directory's canonical path is never removed from the
visited set — it is inserted when the call for that directory starts and
is still present when the whole walk returns, not just while the call is
on the stack. Consequently the visited set acts as a global dedup cache:
the same real directory reachable through two non-overlapping branches is
reported as `SymlinkLoop` on its second encounter (see the
counterexample). -/
theorem claim_C2 (fl : Faults) (opts : CopyOptions) (fuel : Nat)
    (src dst : FPath) (depth : Nat) (visited : List FPath) (fs : Fs)
    (summary : CopySummary) (st : St)
    (h : copy_dir fl opts fuel src dst depth visited fs summary =
      some (Except.ok st)) :
    (∀ x, x ∈ visited → x ∈ st.visited) ∧
    (∀ r, canonicalizeFs fs src = some r → r ∈ st.visited) := by
  constructor
  · exact fun x hx =>
      copy_dir_visited_mono fl opts fuel src dst depth visited fs summary st h x hx
  · intro r hr
    cases fuel with
    | zero => exact absurd h (by simp [copy_dir])
    | succ fuel =>
      simp only [copy_dir] at h
      repeat' split at h
      all_goals try cases h
      rename_i real hcanon hmem hdir
      rw [hcanon, Option.some.injEq] at hr
      subst hr
      exact copyEntries_visited_mono (copy_dir fl opts fuel)
        (copy_dir_visited_mono fl opts fuel) fl opts src dst depth _ _ _ _ _ h
        real (List.mem_cons_self _ _)

/-- C2 counterexample: two sibling symlinks `s/l1` and `s/l2` to the same
real directory `t` — two non-overlapping branches — with
`follow_symlinks = true`. The claim says both are traversed; instead the
second encounter of `t` is reported as `SymlinkLoop`, because `t`'s
canonical path was not removed from the visited set when the call for the
first branch returned. -/
theorem claim_C2_counterexample :
    copy_recursive noFaults fsC2 ["s"] ["d"] optsFollow 9 =
      some (Except.error (CopyError.SymlinkLoop ["t"])) := rfl

/-- C2 witness: the amended theorem applied to a concrete successful walk
of the empty directory `s`, whose canonical path is still in the returned
visited set. -/
theorem claim_C2_witness :
    (["s"] : FPath) ∈ St.visited ⟨fsC2w, [["s"]], ⟨0, 0⟩⟩ :=
  (claim_C2 noFaults CopyOptions.libDefault 1 ["s"] ["d"] 0 [] fsC2w ⟨0, 0⟩
    ⟨fsC2w, [["s"]], ⟨0, 0⟩⟩ rfl).2 ["s"] rfl

/-- C1 witness: the cycle scenario at a concrete option set and fuel. -/
theorem claim_C1_witness :
    copy_recursive noFaults fsC1 ["a"] ["d"]
      ⟨true, true, true, 8192, true, 257⟩ 2 =
      some (Except.error (CopyError.SymlinkLoop ["a"])) :=
  claim_C1 true true true 8192 256 0

/-- C3 witness: the amended special-file theorem at the library's default
option values. -/
theorem claim_C3_witness :
    ∃ fs1 b,
      copy_recursive noFaults fsC3 ["s"] ["d"]
        ⟨true, false, true, 8192, true, 256⟩ 1 =
        some (Except.ok (fs1, ⟨b, 1⟩)) ∧
      lookupFs fs1 ["d", "p"] = none ∧
      isFileFs fs1 ["d", "f"] = true :=
  claim_C3 true false true true 8192 256 0

/-- C9 witness: the amended escape theorem at concrete content and mode. -/
theorem claim_C9_witness :
    copy_recursive noFaults (fsC9fam "shadow" 384) ["s"] ["d"] optsFollow 5 =
      some (Except.ok (fsC9famDone "shadow" 384, ⟨6, 0⟩)) ∧
    lookupFs (fsC9famDone "shadow" 384) ["d", "l"] =
      some (FsNode.file "shadow" 384) :=
  claim_C9 "shadow" 384
